import Mathlib

/-!
# Verification of the conversation-orchestration chatbot backend

Shallow embedding of the two backend implementations found in the repository:

* `App` models `src/chatbot/backend/app` (the FastAPI application with
  `ChatService.process_message` / `ChatService.stream_message`, the Gemini
  adapter and the SSE relay in `app/api/routes.py`);
* `Backend` models `src/backend` (the legacy service with
  `ChatService.send_message` and `LLMService.generate_response`).

Conventions of the embedding:

* timestamps (`datetime.now()`) are modelled as a strictly increasing natural
  number clock; each call of `now()` inside one request consumes one tick;
* UUIDs are modelled as natural numbers; `uuid4()` is passed in as a fresh
  identifier argument;
* the Python dict `conversations` is modelled as a list of conversations, in
  insertion order, with update-in-place (Python dict assignment to an existing
  key keeps the entry's position);
* Python aliasing is modelled explicitly: `conversation.messages.append(...)`
  mutates the object held by the store, so the embedding re-inserts the
  updated conversation into the store at the point of the append;
* the LLM adapter's network call is a parameter of the orchestrator functions
  (a function from the transmitted inputs to an outcome), since its behaviour
  is external to the program;
* generation parameters (`temperature`, `top_p`, `max_tokens`) are forwarded
  verbatim to the adapter and never inspected by the orchestrator; they are
  omitted from the embedded request since no observable behaviour modelled
  here depends on them (floating point values are not embedded).
-/

namespace App

/-- Embeds `app/models/chat.py` `Message`: role, content and creation timestamp. -/
structure Message where
  role : String
  content : String
  timestamp : Nat
deriving Repr, DecidableEq

/-- Embeds `app/models/chat.py` `Conversation`. `metadata` is an open string map,
never touched by the orchestrator; modelled as an association list. -/
structure Conversation where
  id : Nat
  title : Option String
  system_prompt : Option String
  messages : List Message
  created_at : Nat
  updated_at : Nat
  metadata : List (String × String)
deriving Repr, DecidableEq

/-- Embeds `app/models/chat.py` `ChatRequest` (generation parameters omitted, see
module docstring). -/
structure ChatRequest where
  message : String
  conversation_id : Option Nat
deriving Repr, DecidableEq

/-- Embeds `app/models/chat.py` `ConversationCreateRequest`. -/
structure ConversationCreateRequest where
  title : Option String
  system_prompt : Option String
deriving Repr, DecidableEq

/-- Embeds `app/models/chat.py` `ConversationResponse`. -/
structure ConversationResponse where
  id : Nat
  title : Option String
  created_at : Nat
  updated_at : Nat
  message_count : Nat
deriving Repr, DecidableEq

/-- The `conversations: Dict[UUID, Conversation]` storage, as its values in
insertion order. -/
abbrev Store := List Conversation

/-- Embeds `self.conversations[conversation_id]` lookup (`conversation_id in
self.conversations` test plus indexing). -/
def Store.get (s : Store) (cid : Nat) : Option Conversation :=
  List.find? (fun c => c.id == cid) s

/-- Embeds `self.conversations[conversation.id] = conversation`: replaces the entry
with the same id in place, or appends a new entry. -/
def Store.insert (s : Store) (c : Conversation) : Store :=
  if List.any s (fun d => d.id == c.id) then
    List.map (fun d => if d.id == c.id then c else d) s
  else
    s ++ [c]

/-- Errors raised by the app `ChatService` (`HTTPException` 404, and a
propagated adapter exception). -/
inductive ChatError where
  | notFound (cid : Nat)
  | adapterFailure (cause : String)
deriving Repr, DecidableEq

/-- Outcome of one adapter `generate_response` call. -/
inductive GenResult where
  | ok (text : String)
  | err (cause : String)
deriving Repr, DecidableEq

/-- Embeds `ChatService.create_conversation` (`app/services/chat_service.py` lines
27-47): builds a `Conversation` from the creation request, with Pydantic
default factories supplying id, empty messages and timestamps, and stores it.
`t` is the creation time, `newId` the fresh uuid. -/
def createConversation (request : ConversationCreateRequest) (t newId : Nat)
    (store : Store) : Conversation × Store :=
  let conversation : Conversation :=
    { id := newId
      title := request.title
      system_prompt := request.system_prompt
      messages := []
      created_at := t
      updated_at := t
      metadata := [] }
  (conversation, store.insert conversation)

/-- The get-or-create block shared verbatim by `process_message` (lines
158-165) and `stream_message` (lines 226-233): load the conversation when the
request carries an id (404 when absent), else create one seeded with the
default system prompt. -/
def getOrCreateConversation (store : Store) (request : ChatRequest)
    (defaultSystemPrompt : String) (t newId : Nat) :
    Except ChatError (Conversation × Store) :=
  match request.conversation_id with
  | some cid =>
    match store.get cid with
    | some conversation => Except.ok (conversation, store)
    | none => Except.error (ChatError.notFound cid)
  | none =>
    let createRequest : ConversationCreateRequest :=
      { title := none, system_prompt := some defaultSystemPrompt }
    Except.ok (createConversation createRequest t newId store)

/-- Embeds `history = [{"role": m.role, "content": m.content} for m in
conversation.messages[:-1]]`. -/
def buildHistory (messages : List Message) : List (String × String) :=
  List.map (fun m => (m.role, m.content)) messages.dropLast

/-- Embeds `conversation.system_prompt or default_system_prompt`: Python `or`
falls through on `None` and on the empty string. -/
def effectiveSystemPrompt (conversationPrompt : Option String)
    (defaultSystemPrompt : String) : String :=
  match conversationPrompt with
  | none => defaultSystemPrompt
  | some s => if s = "" then defaultSystemPrompt else s

/-- Python truthiness test `not conversation.title`. -/
def titleMissing : Option String → Bool
  | none => true
  | some s => s == ""

/-- Embeds `user_message.content[:30] + ("..." if len(user_message.content) > 30
else "")` — the derived conversation title. -/
def deriveTitle (content : String) : String :=
  content.take 30 ++ (if content.length > 30 then "..." else "")

/-- The commit block shared by `process_message` (lines 197-209) and
`stream_message` (lines 270-281): append the assistant message, refresh
`updated_at`, derive a title for a first exchange of an untitled
conversation, and write the conversation back to the store.
`t` is the tick of the assistant `Message` default factory, `t + 1` the tick
of the `updated_at` refresh. -/
def commitAssistant (conversation : Conversation) (userContent text : String)
    (t : Nat) (store : Store) : Conversation × Store :=
  let assistantMessage : Message := { role := "assistant", content := text, timestamp := t }
  let conv2 : Conversation :=
    { conversation with
        messages := conversation.messages ++ [assistantMessage]
        updated_at := t + 1 }
  let conv3 : Conversation :=
    if titleMissing conv2.title && conv2.messages.length == 2 then
      { conv2 with title := some (deriveTitle userContent) }
    else conv2
  (conv3, store.insert conv3)

/-- Embeds `ChatService.process_message` (`app/services/chat_service.py` lines
145-211). `gen` is the adapter's `generate_response`, applied to the
transmitted message, history and system prompt. Tick usage: `t` creates the
conversation (when new), `t + 1` stamps the user message, `t + 2` the
assistant message, `t + 3` the `updated_at` refresh. -/
def processMessage (gen : String → List (String × String) → String → GenResult)
    (store : Store) (request : ChatRequest) (defaultSystemPrompt : String)
    (t newId : Nat) : Except ChatError (String × Conversation) × Store :=
  match getOrCreateConversation store request defaultSystemPrompt t newId with
  | Except.error e => (Except.error e, store)
  | Except.ok (conversation, store0) =>
    let userMessage : Message :=
      { role := "user", content := request.message, timestamp := t + 1 }
    let conv1 : Conversation :=
      { conversation with messages := conversation.messages ++ [userMessage] }
    let store1 := store0.insert conv1
    let history := buildHistory conv1.messages
    let systemPrompt := effectiveSystemPrompt conv1.system_prompt defaultSystemPrompt
    match gen request.message history systemPrompt with
    | GenResult.err cause => (Except.error (ChatError.adapterFailure cause), store1)
    | GenResult.ok text =>
      let (conv3, store2) := commitAssistant conv1 userMessage.content text (t + 2) store1
      (Except.ok (text, conv3), store2)

/-- Embeds `ChatService.stream_message` (`app/services/chat_service.py` lines
213-284). `streamFn` is the adapter's `generate_stream`, yielding the finite
fragment list for the transmitted inputs (normal completion). The returned
list is the sequence of `(chunk, conversation)` pairs the generator yields:
one `(fragment, None)` per fragment, then the terminal `("", conversation)`
pair after the commit. Tick usage matches `processMessage`. -/
def streamMessage (streamFn : String → List (String × String) → String → List String)
    (store : Store) (request : ChatRequest) (defaultSystemPrompt : String)
    (t newId : Nat) :
    Except ChatError (List (String × Option Conversation) × Store) :=
  match getOrCreateConversation store request defaultSystemPrompt t newId with
  | Except.error e => Except.error e
  | Except.ok (conversation, store0) =>
    let userMessage : Message :=
      { role := "user", content := request.message, timestamp := t + 1 }
    let conv1 : Conversation :=
      { conversation with messages := conversation.messages ++ [userMessage] }
    let store1 := store0.insert conv1
    let history := buildHistory conv1.messages
    let systemPrompt := effectiveSystemPrompt conv1.system_prompt defaultSystemPrompt
    let fragments := streamFn request.message history systemPrompt
    let fullResponse := String.join fragments
    let (conv3, store2) := commitAssistant conv1 userMessage.content fullResponse (t + 2) store1
    Except.ok (List.map (fun chunk => (chunk, (none : Option Conversation))) fragments
      ++ [("", some conv3)], store2)

/-- The `ConversationResponse(...)` projection built per paginated entry in
`get_all_conversations` (lines 89-98). -/
def conversationResponseOf (conv : Conversation) : ConversationResponse :=
  { id := conv.id
    title := conv.title
    created_at := conv.created_at
    updated_at := conv.updated_at
    message_count := conv.messages.length }

/-- Embeds `ChatService.get_all_conversations` (`app/services/chat_service.py`
lines 69-98): sort the stored conversations by `updated_at` descending
(stable), slice `[offset : offset + limit]`, and project to
`ConversationResponse`. -/
def getAllConversations (store : Store) (limit offset : Nat) :
    List ConversationResponse :=
  let sorted := List.mergeSort store (fun a b => b.updated_at ≤ a.updated_at)
  let paginated := (sorted.drop offset).take limit
  List.map conversationResponseOf paginated

/-- One server-sent event as produced by `chat_stream.event_generator`
(`app/api/routes.py` lines 83-100): an event name and a data payload. -/
structure SSEEvent where
  event : String
  data : String
deriving Repr, DecidableEq

/-- Embeds `json.dumps({"conversation_id": conversation_id})` for the terminal
event, with the uuid rendered as a string. -/
def doneData (cid : Nat) : String :=
  "\x7b\"conversation_id\": \"" ++ toString cid ++ "\"\x7d"

/-- Embeds `chat_stream.event_generator` (`app/api/routes.py` lines 83-100): each
`(chunk, conversation)` pair yielded by `stream_message` becomes one SSE
event — a `done` event carrying the conversation id when the conversation is
present (the terminal yield), else a `message` event carrying the chunk. -/
def eventGenerator (outputs : List (String × Option Conversation)) : List SSEEvent :=
  List.map (fun out =>
    match out with
    | (_, some conversation) => { event := "done", data := doneData conversation.id }
    | (chunk, none) => { event := "message", data := chunk })
    outputs

end App

namespace Gemini

/-- One entry of the `contents` list built by `GeminiLLM._prepare_contents`
(`app/llm/gemini.py` lines 46-87): a role and the `parts` text list. -/
structure Content where
  role : String
  parts : List String
deriving Repr, DecidableEq

/-- Embeds `GeminiLLM._prepare_contents` (`app/llm/gemini.py` lines 46-87): an
optional synthesized system turn, the mapped history, then the current
message. Python truthiness: `if system_prompt:` skips `None` and `""`,
`if conversation_history:` skips the empty list (same result as mapping it). -/
def prepareContents (message : String) (conversation_history : List (String × String))
    (system_prompt : Option String) : List Content :=
  (match system_prompt with
   | some sp => if sp = "" then [] else [{ role := "user", parts := ["System: " ++ sp] }]
   | none => []) ++
  List.map (fun msg =>
    { role := if msg.1 = "user" then "user" else "model", parts := [msg.2] } : (String × String) → Content)
    conversation_history ++
  [{ role := "user", parts := [message] }]

/-- Embeds `last_message = contents[-1]["parts"][0]["text"]` (`app/llm/gemini.py`
line 129 / 179). -/
def lastMessage (message : String) (conversation_history : List (String × String))
    (system_prompt : Option String) : String :=
  (((prepareContents message conversation_history system_prompt).getLastD
    { role := "user", parts := [] }).parts).headD ""

/-- What `GeminiLLM.generate_response` actually transmits to the provider
(`app/llm/gemini.py` lines 117-135): a chat session started with
`history=[]` receives the single turn `send_message(last_message)`, so the
provider-visible content list is exactly one user turn holding
`last_message`. -/
def providerInput (message : String) (conversation_history : List (String × String))
    (system_prompt : Option String) : List Content :=
  ([] : List Content) ++
  [{ role := "user", parts := [lastMessage message conversation_history system_prompt] }]

end Gemini

namespace Backend

/-- Embeds `models/schemas.py` `Message`. -/
structure Message where
  role : String
  content : String
  timestamp : Nat
deriving Repr, DecidableEq

/-- Embeds `models/schemas.py` `Conversation`. -/
structure Conversation where
  id : Nat
  title : String
  messages : List Message
  system_prompt : String
  model : String
  created_at : Nat
  updated_at : Nat
deriving Repr, DecidableEq

/-- Embeds `models/schemas.py` `ChatRequest`. -/
structure ChatRequest where
  conversation_id : Option Nat
  message : String
  model : Option String
  system_prompt : Option String
deriving Repr, DecidableEq

/-- Embeds `models/schemas.py` `ChatResponse`. -/
structure ChatResponse where
  conversation_id : Nat
  message : Message
  model : String
deriving Repr, DecidableEq

/-- Embeds `models/schemas.py` `CreateConversationRequest`. -/
structure CreateConversationRequest where
  title : String
  system_prompt : String
  model : String
deriving Repr, DecidableEq

/-- The `self.conversations: Dict[str, Conversation]` storage, keyed by the
stringified conversation uuid, as its values in insertion order. -/
abbrev Store := List Conversation

/-- Embeds `self.conversations.get(str(conversation_id))`. -/
def Store.get (s : Store) (cid : Nat) : Option Conversation :=
  List.find? (fun c => c.id == cid) s

/-- Embeds `self.conversations[str(conversation.id)] = conversation`. -/
def Store.insert (s : Store) (c : Conversation) : Store :=
  if List.any s (fun d => d.id == c.id) then
    List.map (fun d => if d.id == c.id then c else d) s
  else
    s ++ [c]

/-- The `HTTPException`s raised by `services/chat_service.py`. -/
inductive HttpError where
  | badRequest (detail : String)
  | notFound (detail : String)
  | internalError (detail : String)
deriving Repr, DecidableEq

/-- The exceptions that can escape `LLMService.generate_response`
(`services/llm_service.py` lines 426-431): the `ValueError` for an
unresolvable model, or whatever the resolved adapter raised. -/
inductive LLMError where
  | unsupportedModel (modelId : String)
  | adapterError (detail : String)
deriving Repr, DecidableEq

/-- Embeds `str(e)` rendering of an `LLMError`, as interpolated by
`send_message`'s exception handler. -/
def LLMError.message : LLMError → String
  | LLMError.unsupportedModel m => "不支持的模型: " ++ m
  | LLMError.adapterError d => d

/-- One provider adapter (`LLMAdapter` subclass): its `generate_response`
method, taking the message history and optional system prompt. The network
behaviour is external, hence a function parameter. -/
structure LLMAdapter where
  generate : List Message → Option String → Except String String

/-- Embeds `model_id.split("-")[0]` — the leading token of a model id: the
characters before the first `-` (the whole id when it has no `-`). -/
def leadingToken (modelId : String) : String :=
  ⟨modelId.data.takeWhile (fun c => !(c == '-'))⟩

/-- Embeds `self.adapters.get(model_id.split("-")[0])` (`services/llm_service.py`
line 428): provider-family resolution by leading-token lookup in the adapter
registry. -/
def resolveAdapter (adapters : List (String × LLMAdapter)) (modelId : String) :
    Option LLMAdapter :=
  Option.map (fun p => p.2)
    (List.find? (fun p => p.1 == leadingToken modelId) adapters)

/-- Embeds `LLMService.generate_response` (`services/llm_service.py` lines
426-431): resolve the adapter from the model id's leading token, raising
`ValueError` (`unsupportedModel`) when no adapter matches, else delegate. -/
def generateResponse (adapters : List (String × LLMAdapter)) (modelId : String)
    (messages : List Message) (system_prompt : Option String) :
    Except LLMError String :=
  match resolveAdapter adapters modelId with
  | none => Except.error (LLMError.unsupportedModel modelId)
  | some adapter =>
    match adapter.generate messages system_prompt with
    | Except.ok text => Except.ok text
    | Except.error d => Except.error (LLMError.adapterError d)

/-- Python truthiness test `if not model` / `if not conversation_id` on an
optional string-like value: `None` and `""` are falsy. -/
def optionFalsy : Option String → Bool
  | none => true
  | some s => s == ""

/-- Embeds `user_message[:30] + "..." if len(user_message) > 30 else user_message`
— the creation-time title of a conversation opened by `send_message`. -/
def truncatedTitle (userMessage : String) : String :=
  if userMessage.length > 30 then userMessage.take 30 ++ "..." else userMessage

/-- Embeds `ChatService.create_conversation` (`services/chat_service.py` lines
31-64): build the conversation, then — when the system prompt is non-empty —
append a `system` `Message` holding the prompt, and store the conversation.
`t` is the creation time, `newId` the fresh uuid. -/
def createConversation (conversation_data : CreateConversationRequest)
    (t newId : Nat) (store : Store) : Conversation × Store :=
  let conversation : Conversation :=
    { id := newId
      title := conversation_data.title
      system_prompt := conversation_data.system_prompt
      model := conversation_data.model
      messages := []
      created_at := t
      updated_at := t }
  let conversation :=
    if conversation_data.system_prompt ≠ "" then
      { conversation with
          messages := conversation.messages ++
            [{ role := "system", content := conversation_data.system_prompt, timestamp := t }] }
    else conversation
  (conversation, store.insert conversation)

/-- Embeds `str(e)` of the `TypeError` raised by the invocation in
`send_message` (see `callGenerateResponse`). CPython renders it along the
lines of `generate_response() got an unexpected keyword argument: model`
(the exact prefix and quoting vary by Python version); no claim depends on
the rendering, only on the failure's kind and ordering. -/
def typeErrorDetail : String :=
  "generate_response() got an unexpected keyword argument: model"

/-- Embeds the call site
`self.llm_service.generate_response(messages=conversation.messages, model=model)`
(`services/chat_service.py` lines 192-195). The callee's signature
(`services/llm_service.py` line 426) is
`generate_response(self, model_id, messages, system_prompt=None)`: there is
no `model` parameter and `model_id` is not supplied, so Python raises
`TypeError` at the call boundary, before the callee's body — and with it
adapter resolution — can run. The call therefore always fails and never
consults the registry; its parameters record what the call site passes. -/
def callGenerateResponse (_adapters : List (String × LLMAdapter))
    (_messages : List Message) (_model : String) : Except String String :=
  Except.error typeErrorDetail

/-- The body of `send_message` from the user-message append onward
(`services/chat_service.py` lines 179-224), shared by the new- and
existing-conversation paths: append the user message (visible in the store
through aliasing), then invoke the LLM service through the broken call site
`callGenerateResponse`, which raises `TypeError` before
`LLMService.generate_response` can run; the caught exception is wrapped into
a 500 `HTTPException`. The success branch mirrors the source's commit code
(lines 197-218) but is unreachable, exactly as in the program. Ticks: `t + 1`
user message, `t + 2` assistant message, `t + 3` `updated_at`. -/
def sendMessageInvoke (adapters : List (String × LLMAdapter))
    (conversation : Conversation) (store : Store) (userText model : String)
    (t : Nat) : Except HttpError ChatResponse × Store :=
  let userMessage : Message := { role := "user", content := userText, timestamp := t + 1 }
  let conv1 : Conversation :=
    { conversation with messages := conversation.messages ++ [userMessage] }
  let store1 := store.insert conv1
  match callGenerateResponse adapters conv1.messages model with
  | Except.error e =>
    (Except.error (HttpError.internalError ("模型调用失败: " ++ e)), store1)
  | Except.ok text =>
    let assistantMessage : Message :=
      { role := "assistant", content := text, timestamp := t + 2 }
    let conv2 : Conversation :=
      { conv1 with
          messages := conv1.messages ++ [assistantMessage]
          updated_at := t + 3 }
    let store2 := store1.insert conv2
    (Except.ok { conversation_id := conversation.id, message := assistantMessage,
                 model := model }, store2)

/-- Embeds `ChatService.send_message` (`services/chat_service.py` lines 130-224).
When the request has no conversation id: a falsy model is rejected with 400
before any mutation, else a conversation is created (title derived from the
message, system prompt `system_prompt or ""`). When it has one: 404 when
absent, and a falsy request model falls back to the conversation's bound
model. Then `sendMessageInvoke` runs the invoke/commit tail. -/
def sendMessage (adapters : List (String × LLMAdapter)) (store : Store)
    (request : ChatRequest) (t newId : Nat) :
    Except HttpError ChatResponse × Store :=
  match request.conversation_id with
  | none =>
    if optionFalsy request.model then
      (Except.error (HttpError.badRequest "创建新对话时必须提供模型名称"), store)
    else
      let model := request.model.getD ""
      let (conversation, store1) := createConversation
        { title := truncatedTitle request.message
          system_prompt := (request.system_prompt.getD "")
          model := model } t newId store
      sendMessageInvoke adapters conversation store1 request.message model t
  | some cid =>
    match store.get cid with
    | none => (Except.error (HttpError.notFound ("对话 " ++ toString cid ++ " 不存在")), store)
    | some conversation =>
      let model :=
        if optionFalsy request.model then conversation.model else request.model.getD ""
      sendMessageInvoke adapters conversation store request.message model t

end Backend

namespace App

/-- The role of a stored message is one of the two chat roles the
orchestrator ever appends. -/
def Message.chatRole (m : Message) : Prop :=
  m.role = "user" ∨ m.role = "assistant"

instance (m : Message) : Decidable m.chatRole := by
  unfold Message.chatRole; infer_instance

/-- Every message of the conversation carries a chat role. -/
def Conversation.chatRolesOnly (c : Conversation) : Prop :=
  ∀ m ∈ c.messages, m.chatRole

instance (c : Conversation) : Decidable c.chatRolesOnly := by
  unfold Conversation.chatRolesOnly; infer_instance

/-- Every stored conversation holds only user/assistant messages. -/
def Store.chatRolesOnly (s : Store) : Prop :=
  ∀ c ∈ s, c.chatRolesOnly

instance (s : Store) : Decidable s.chatRolesOnly := by
  unfold Store.chatRolesOnly; infer_instance

end App

/-! ## Helper lemmas on the association-list store -/

theorem find?_map_replace {α : Type} (p : α → Bool) (c : α) (hp : p c = true) :
    ∀ s : List α, List.any s p = true →
      List.find? p (List.map (fun d => if p d then c else d) s) = some c
  | [], h => by simp at h
  | d :: tl, h => by
    by_cases hd : p d = true
    · simp [List.find?, hd, hp]
    · have hd' : p d = false := by
        cases hpd : p d
        · rfl
        · exact absurd hpd hd
      have h' : List.any tl p = true := by
        simp only [List.any_cons, hd', Bool.false_or] at h
        exact h
      rw [List.map_cons, if_neg hd, List.find?_cons, hd']
      exact find?_map_replace p c hp tl h'

theorem find?_append_single {α : Type} (p : α → Bool) (c : α) (hp : p c = true) :
    ∀ s : List α, List.any s p = false → List.find? p (s ++ [c]) = some c
  | [], _ => by simp [List.find?, hp]
  | d :: tl, h => by
    have h' := h
    simp only [List.any_cons, Bool.or_eq_false_iff] at h'
    obtain ⟨hd, htl⟩ := h'
    simp only [List.cons_append, List.find?_cons, hd]
    exact find?_append_single p c hp tl htl

theorem mem_map_replace {α : Type} (p : α → Bool) (c : α) (s : List α) (x : α)
    (hx : x ∈ List.map (fun d => if p d then c else d) s) : x ∈ s ∨ x = c := by
  rcases List.mem_map.mp hx with ⟨a, ha, hax⟩
  by_cases hpa : p a
  · right
    rw [← hax, if_pos hpa]
  · left
    rw [← hax, if_neg hpa]
    exact ha

theorem App.Store.get_insert_app (s : App.Store) (c : App.Conversation) :
    App.Store.get (App.Store.insert s c) c.id = some c := by
  unfold App.Store.insert
  cases hany : List.any s (fun d => d.id == c.id) with
  | true =>
    simp only [if_pos hany]
    exact find?_map_replace (fun d => d.id == c.id) c (by simp) s hany
  | false =>
    simp only [hany, Bool.false_eq_true, if_false]
    exact find?_append_single (fun d => d.id == c.id) c (by simp) s hany

theorem App.Store.mem_insert (s : App.Store) (c x : App.Conversation)
    (hx : x ∈ App.Store.insert s c) : x ∈ s ∨ x = c := by
  unfold App.Store.insert at hx
  split at hx
  · exact mem_map_replace _ c s x hx
  · rcases List.mem_append.mp hx with h | h
    · exact Or.inl h
    · exact Or.inr (by simpa using h)

theorem Backend.Store.get_insert_backend (s : Backend.Store) (c : Backend.Conversation) :
    Backend.Store.get (Backend.Store.insert s c) c.id = some c := by
  unfold Backend.Store.insert
  cases hany : List.any s (fun d => d.id == c.id) with
  | true =>
    simp only [if_pos hany]
    exact find?_map_replace (fun d => d.id == c.id) c (by simp) s hany
  | false =>
    simp only [hany, Bool.false_eq_true, if_false]
    exact find?_append_single (fun d => d.id == c.id) c (by simp) s hany

/-- A string no longer than `n` characters is unchanged by `take n`. -/
theorem string_take_of_length_le (s : String) (n : Nat) (h : s.length ≤ n) :
    s.take n = s := by
  rw [String.take_eq]
  have hl : s.1.take n = s.1 := List.take_of_length_le h
  rw [hl]

/-! ## Claims -/

/-- C5: the spec requires the adapter to transmit the system prompt to the
provider when history is empty and a prompt is set. The code computes the
prompt turn in `_prepare_contents` but then transmits only the final element
of `contents` over a chat session opened with empty history, so the provider
receives the bare current message and never sees the system prompt: with
message `"Hi"`, empty history and prompt `"Be brief"`, the provider-visible
input is exactly `[user: "Hi"]`, and in general the transmitted text equals
the current message whatever the prompt and history are. -/
theorem gemini_system_prompt_not_transmitted :
    Gemini.prepareContents "Hi" [] (some "Be brief") =
      [{ role := "user", parts := ["System: Be brief"] },
       { role := "user", parts := ["Hi"] }] ∧
    Gemini.providerInput "Hi" [] (some "Be brief") =
      [{ role := "user", parts := ["Hi"] }] ∧
    (∀ (message : String) (history : List (String × String)) (sp : Option String),
      Gemini.lastMessage message history sp = message) := by
  refine ⟨by decide, by decide, ?_⟩
  intro message history sp
  unfold Gemini.lastMessage Gemini.prepareContents
  rw [List.getLastD_concat]
  rfl

/-- C7: adapter resolution is provider-family matching on the model id's
leading token: against a registry holding only the key `"acme"`,
`"acme-large-v2"` resolves to that adapter (and the generate call is routed
to it), while a model id whose leading token matches no registered provider
fails with the unsupported-model error. -/
theorem adapter_resolution_leading_token :
    (∀ a : Backend.LLMAdapter,
      Backend.resolveAdapter [("acme", a)] "acme-large-v2" = some a) ∧
    (∀ (a : Backend.LLMAdapter) (messages : List Backend.Message) (sp : Option String),
      Backend.generateResponse [("acme", a)] "unknown-x" messages sp =
        Except.error (Backend.LLMError.unsupportedModel "unknown-x")) ∧
    (∀ (adapters : List (String × Backend.LLMAdapter)) (modelId : String)
        (messages : List Backend.Message) (sp : Option String),
      Backend.resolveAdapter adapters modelId = none →
      Backend.generateResponse adapters modelId messages sp =
        Except.error (Backend.LLMError.unsupportedModel modelId)) := by
  refine ⟨fun a => by rfl, fun a messages sp => by rfl, ?_⟩
  intro adapters modelId messages sp h
  unfold Backend.generateResponse
  rw [h]

/-- Witness for `adapter_resolution_leading_token`: the unsupported-model
branch at a concrete registry and model id. -/
theorem adapter_resolution_leading_token_witness :
    Backend.generateResponse [("acme", ⟨fun _ _ => Except.ok "hi"⟩)] "unknown-x" [] none =
      Except.error (Backend.LLMError.unsupportedModel "unknown-x") :=
  adapter_resolution_leading_token.2.2 [("acme", ⟨fun _ _ => Except.ok "hi"⟩)] "unknown-x" [] none (by rfl)

/-- C6: `get_all_conversations` returns the stored conversations sorted by
`updated_at` descending, with offset and limit applied after sorting (the
result is the fully sorted projected list with `drop offset` / `take limit`
applied); on a store of three or more conversations `limit=2, offset=0`
returns exactly two entries; an offset at or beyond the end yields the empty
list, never an error. -/
theorem get_all_conversations_pagination (store : App.Store) (limit offset : Nat) :
    List.Pairwise (fun a b : App.ConversationResponse => b.updated_at ≤ a.updated_at)
      (App.getAllConversations store limit offset) ∧
    App.getAllConversations store limit offset =
      List.take limit (List.drop offset
        (List.map App.conversationResponseOf
          (List.mergeSort store (fun a b => b.updated_at ≤ a.updated_at)))) ∧
    (3 ≤ store.length → (App.getAllConversations store 2 0).length = 2) ∧
    (store.length ≤ offset → App.getAllConversations store limit offset = []) := by
  have htrans : ∀ a b c : App.Conversation,
      (fun a b : App.Conversation => decide (b.updated_at ≤ a.updated_at)) a b = true →
      (fun a b : App.Conversation => decide (b.updated_at ≤ a.updated_at)) b c = true →
      (fun a b : App.Conversation => decide (b.updated_at ≤ a.updated_at)) a c = true := by
    intro a b c hab hbc
    simp only [decide_eq_true_eq] at *
    omega
  have htotal : ∀ a b : App.Conversation,
      ((fun a b : App.Conversation => decide (b.updated_at ≤ a.updated_at)) a b ||
        (fun a b : App.Conversation => decide (b.updated_at ≤ a.updated_at)) b a) = true := by
    intro a b
    simp only [Bool.or_eq_true, decide_eq_true_eq]
    omega
  refine ⟨?_, ?_, ?_, ?_⟩
  · have hs := List.sorted_mergeSort htrans htotal store
    have hp : List.Pairwise (fun a b : App.Conversation => b.updated_at ≤ a.updated_at)
        (List.mergeSort store (fun a b => b.updated_at ≤ a.updated_at)) := by
      refine hs.imp ?_
      intro a b h
      exact of_decide_eq_true h
    have hsub := (List.take_sublist limit
      (List.drop offset (List.mergeSort store
        (fun a b : App.Conversation => b.updated_at ≤ a.updated_at)))).trans
      (List.drop_sublist offset _)
    exact List.Pairwise.map App.conversationResponseOf (fun a b h => h) (hp.sublist hsub)
  · unfold App.getAllConversations
    rw [List.map_take, List.map_drop]
  · intro h
    unfold App.getAllConversations
    simp only [List.drop_zero, List.length_map, List.length_take, List.length_mergeSort]
    omega
  · intro h
    unfold App.getAllConversations
    dsimp only
    rw [List.drop_eq_nil_of_le (by simpa using h)]
    simp

/-- Witness for `get_all_conversations_pagination`: a three-conversation
store returns exactly two summaries for `limit=2, offset=0`, and the empty
list for an offset past the end. -/
theorem get_all_conversations_pagination_witness :
    (App.getAllConversations
      [⟨1, none, none, [], 0, 5, []⟩, ⟨2, none, none, [], 0, 9, []⟩,
       ⟨3, none, none, [], 0, 1, []⟩] 2 0).length = 2 ∧
    App.getAllConversations
      [⟨1, none, none, [], 0, 5, []⟩, ⟨2, none, none, [], 0, 9, []⟩,
       ⟨3, none, none, [], 0, 1, []⟩] 4 3 = [] :=
  ⟨(get_all_conversations_pagination
      [⟨1, none, none, [], 0, 5, []⟩, ⟨2, none, none, [], 0, 9, []⟩,
       ⟨3, none, none, [], 0, 1, []⟩] 2 0).2.2.1 (by decide),
   (get_all_conversations_pagination
      [⟨1, none, none, [], 0, 5, []⟩, ⟨2, none, none, [], 0, 9, []⟩,
       ⟨3, none, none, [], 0, 1, []⟩] 4 3).2.2.2 (by decide)⟩

/-- Inserting a conversation makes it retrievable under any alias of its
id. -/
theorem App.Store.get_insert_of_id (s : App.Store) (c : App.Conversation)
    (cid : Nat) (h : c.id = cid) :
    App.Store.get (App.Store.insert s c) cid = some c :=
  h ▸ App.Store.get_insert_app s c

/-- C2: on every successful chat request, `process_message` appends exactly
one user message followed by one assistant message to the resolved
conversation, strictly increases its `updated_at` (under clock monotonicity:
the stored timestamp is not in the request's future), and commits the
updated conversation to the store under its id. -/
theorem process_message_success_appends_pair
    (gen : String → List (String × String) → String → App.GenResult)
    (store : App.Store) (request : App.ChatRequest) (defaultSystemPrompt : String)
    (t newId : Nat) (conversation : App.Conversation) (store0 : App.Store)
    (text : String) (final : App.Conversation) (store2 : App.Store)
    (hres : App.getOrCreateConversation store request defaultSystemPrompt t newId =
      Except.ok (conversation, store0))
    (hok : App.processMessage gen store request defaultSystemPrompt t newId =
      (Except.ok (text, final), store2))
    (hclock : conversation.updated_at ≤ t) :
    final.messages = conversation.messages ++
      [{ role := "user", content := request.message, timestamp := t + 1 },
       { role := "assistant", content := text, timestamp := t + 2 }] ∧
    conversation.updated_at < final.updated_at ∧
    App.Store.get store2 conversation.id = some final := by
  simp only [App.processMessage, hres, App.commitAssistant] at hok
  split at hok
  · simp at hok
  · simp only [Prod.mk.injEq, Except.ok.injEq] at hok
    obtain ⟨⟨htext, hconv⟩, hstore⟩ := hok
    subst htext
    subst hconv
    subst hstore
    refine ⟨?_, ?_, ?_⟩
    · split <;> simp [List.append_assoc]
    · split <;> (dsimp only; omega)
    · refine App.Store.get_insert_of_id _ _ _ ?_
      split <;> rfl

set_option maxRecDepth 8192 in
/-- Witness for `process_message_success_appends_pair` at a concrete new
conversation and a succeeding adapter. -/
theorem process_message_success_appends_pair_witness :
    (⟨7, some "ping", some "sys",
        [⟨"user", "ping", 1⟩, ⟨"assistant", "pong", 2⟩], 0, 3, []⟩ :
        App.Conversation).messages =
      (⟨7, none, some "sys", [], 0, 0, []⟩ : App.Conversation).messages ++
        [{ role := "user", content := "ping", timestamp := 0 + 1 },
         { role := "assistant", content := "pong", timestamp := 0 + 2 }] ∧
    (⟨7, none, some "sys", [], 0, 0, []⟩ : App.Conversation).updated_at <
      (⟨7, some "ping", some "sys",
        [⟨"user", "ping", 1⟩, ⟨"assistant", "pong", 2⟩], 0, 3, []⟩ :
        App.Conversation).updated_at ∧
    App.Store.get
      [⟨7, some "ping", some "sys",
        [⟨"user", "ping", 1⟩, ⟨"assistant", "pong", 2⟩], 0, 3, []⟩]
      (⟨7, none, some "sys", [], 0, 0, []⟩ : App.Conversation).id =
      some ⟨7, some "ping", some "sys",
        [⟨"user", "ping", 1⟩, ⟨"assistant", "pong", 2⟩], 0, 3, []⟩ :=
  process_message_success_appends_pair (fun _ _ _ => App.GenResult.ok "pong")
    [] ⟨"ping", none⟩ "sys" 0 7 ⟨7, none, some "sys", [], 0, 0, []⟩
    [⟨7, none, some "sys", [], 0, 0, []⟩] "pong"
    ⟨7, some "ping", some "sys",
      [⟨"user", "ping", 1⟩, ⟨"assistant", "pong", 2⟩], 0, 3, []⟩
    [⟨7, some "ping", some "sys",
      [⟨"user", "ping", 1⟩, ⟨"assistant", "pong", 2⟩], 0, 3, []⟩]
    (by rfl) (by rfl) (by decide)

/-- C3: when the adapter invocation fails, `process_message` has appended
exactly the user message to the resolved conversation — no assistant
message, no `updated_at` refresh, no other field change — and that
conversation (user message included, through store aliasing) is what the
store holds under its id when the exception propagates. -/
theorem process_message_failure_retains_user
    (gen : String → List (String × String) → String → App.GenResult)
    (store : App.Store) (request : App.ChatRequest) (defaultSystemPrompt : String)
    (t newId : Nat) (conversation : App.Conversation) (store0 : App.Store)
    (cause : String)
    (hres : App.getOrCreateConversation store request defaultSystemPrompt t newId =
      Except.ok (conversation, store0))
    (hgen : gen request.message
        (App.buildHistory (conversation.messages ++
          [{ role := "user", content := request.message, timestamp := t + 1 }]))
        (App.effectiveSystemPrompt conversation.system_prompt defaultSystemPrompt) =
      App.GenResult.err cause) :
    App.processMessage gen store request defaultSystemPrompt t newId =
      (Except.error (App.ChatError.adapterFailure cause),
       App.Store.insert store0
         { conversation with
             messages := conversation.messages ++
               [{ role := "user", content := request.message, timestamp := t + 1 }] }) ∧
    App.Store.get
      (App.processMessage gen store request defaultSystemPrompt t newId).2
      conversation.id =
      some { conversation with
              messages := conversation.messages ++
                [{ role := "user", content := request.message, timestamp := t + 1 }] } := by
  have h1 : App.processMessage gen store request defaultSystemPrompt t newId =
      (Except.error (App.ChatError.adapterFailure cause),
       App.Store.insert store0
         { conversation with
             messages := conversation.messages ++
               [{ role := "user", content := request.message, timestamp := t + 1 }] }) := by
    simp only [App.processMessage, hres, hgen]
  refine ⟨h1, ?_⟩
  rw [h1]
  exact App.Store.get_insert_of_id _ _ _ rfl

/-- Witness for `process_message_failure_retains_user` at a concrete new
conversation and a failing adapter. -/
theorem process_message_failure_retains_user_witness :
    App.processMessage (fun _ _ _ => App.GenResult.err "boom") []
      ⟨"ping", none⟩ "sys" 0 7 =
      (Except.error (App.ChatError.adapterFailure "boom"),
       App.Store.insert [⟨7, none, some "sys", [], 0, 0, []⟩]
         { (⟨7, none, some "sys", [], 0, 0, []⟩ : App.Conversation) with
             messages := ([] : List App.Message) ++ [{ role := "user", content := "ping", timestamp := 0 + 1 }] }) ∧
    App.Store.get
      (App.processMessage (fun _ _ _ => App.GenResult.err "boom") []
        ⟨"ping", none⟩ "sys" 0 7).2 7 =
      some { (⟨7, none, some "sys", [], 0, 0, []⟩ : App.Conversation) with
              messages := ([] : List App.Message) ++ [{ role := "user", content := "ping", timestamp := 0 + 1 }] } :=
  process_message_failure_retains_user (fun _ _ _ => App.GenResult.err "boom")
    [] ⟨"ping", none⟩ "sys" 0 7 ⟨7, none, some "sys", [], 0, 0, []⟩
    [⟨7, none, some "sys", [], 0, 0, []⟩] "boom" (by rfl) (by rfl)

/-- C8: on a successful request, `process_message` derives a title exactly
for a first exchange of an untitled conversation: a user message longer than
the 30-character bound yields its 30-character prefix plus `"..."`, a message
within the bound becomes the title verbatim; a conversation that already has
a title, or whose commit leaves more than two messages, keeps its title. -/
theorem title_derivation
    (gen : String → List (String × String) → String → App.GenResult)
    (store : App.Store) (request : App.ChatRequest) (defaultSystemPrompt : String)
    (t newId : Nat) (conversation : App.Conversation) (store0 : App.Store)
    (text : String) (final : App.Conversation) (store2 : App.Store)
    (hres : App.getOrCreateConversation store request defaultSystemPrompt t newId =
      Except.ok (conversation, store0))
    (hok : App.processMessage gen store request defaultSystemPrompt t newId =
      (Except.ok (text, final), store2)) :
    (conversation.messages = [] → App.titleMissing conversation.title = true →
      ((30 < request.message.length →
          final.title = some (request.message.take 30 ++ "...")) ∧
        (request.message.length ≤ 30 → final.title = some request.message))) ∧
    (App.titleMissing conversation.title = false → final.title = conversation.title) ∧
    (conversation.messages ≠ [] → final.title = conversation.title) := by
  simp only [App.processMessage, hres, App.commitAssistant] at hok
  split at hok
  · simp at hok
  · simp only [Prod.mk.injEq, Except.ok.injEq] at hok
    obtain ⟨⟨htext, hconv⟩, hstore⟩ := hok
    subst htext
    subst hconv
    subst hstore
    refine ⟨?_, ?_, ?_⟩
    · intro hempty hmiss
      constructor
      · intro hlen
        split
        · dsimp only
          unfold App.deriveTitle
          rw [if_pos hlen]
        · rename_i hcond
          exact absurd (by simp [hmiss, hempty]) hcond
      · intro hlen
        split
        · dsimp only
          unfold App.deriveTitle
          rw [if_neg (by omega), String.append_empty,
            string_take_of_length_le _ _ hlen]
        · rename_i hcond
          exact absurd (by simp [hmiss, hempty]) hcond
    · intro hmiss
      split
      · rename_i hcond
        rw [Bool.and_eq_true] at hcond
        exact absurd hcond.1 (by simp [hmiss])
      · rfl
    · intro hne
      split
      · rename_i hcond
        rw [Bool.and_eq_true] at hcond
        have h2 := hcond.2
        simp only [List.length_append, List.length_cons, List.length_nil,
          beq_iff_eq] at h2
        exact absurd (List.eq_nil_of_length_eq_zero (by omega)) hne
      · rfl

set_option maxRecDepth 8192 in
/-- Witness for `title_derivation`: a 36-character first message yields the
30-character prefix plus the ellipsis marker; a 4-character first message
becomes the title verbatim. -/
theorem title_derivation_witness :
    (⟨2, some "abcdefghijklmnopqrstuvwxyz0123...", some "sys",
        [⟨"user", "abcdefghijklmnopqrstuvwxyz0123456789", 1⟩, ⟨"assistant", "ok", 2⟩],
        0, 3, []⟩ : App.Conversation).title =
      some ("abcdefghijklmnopqrstuvwxyz0123456789".take 30 ++ "...") ∧
    (⟨7, some "ping", some "sys",
        [⟨"user", "ping", 1⟩, ⟨"assistant", "pong", 2⟩], 0, 3, []⟩ :
        App.Conversation).title = some "ping" :=
  ⟨((title_derivation (fun _ _ _ => App.GenResult.ok "ok") []
      ⟨"abcdefghijklmnopqrstuvwxyz0123456789", none⟩ "sys" 0 2
      ⟨2, none, some "sys", [], 0, 0, []⟩
      [⟨2, none, some "sys", [], 0, 0, []⟩] "ok"
      ⟨2, some "abcdefghijklmnopqrstuvwxyz0123...", some "sys",
        [⟨"user", "abcdefghijklmnopqrstuvwxyz0123456789", 1⟩, ⟨"assistant", "ok", 2⟩],
        0, 3, []⟩
      [⟨2, some "abcdefghijklmnopqrstuvwxyz0123...", some "sys",
        [⟨"user", "abcdefghijklmnopqrstuvwxyz0123456789", 1⟩, ⟨"assistant", "ok", 2⟩],
        0, 3, []⟩]
      (by rfl) (by rfl)).1 rfl rfl).1 (by decide),
   ((title_derivation (fun _ _ _ => App.GenResult.ok "pong") []
      ⟨"ping", none⟩ "sys" 0 7
      ⟨7, none, some "sys", [], 0, 0, []⟩
      [⟨7, none, some "sys", [], 0, 0, []⟩] "pong"
      ⟨7, some "ping", some "sys",
        [⟨"user", "ping", 1⟩, ⟨"assistant", "pong", 2⟩], 0, 3, []⟩
      [⟨7, some "ping", some "sys",
        [⟨"user", "ping", 1⟩, ⟨"assistant", "pong", 2⟩], 0, 3, []⟩]
      (by rfl) (by rfl)).1 rfl rfl).2 (by decide)⟩

/-- C10: when the adapter's stream completes after zero fragments,
`stream_message` still commits exactly one assistant message with empty
content, refreshes `updated_at`, yields exactly one terminal pair carrying
the empty chunk and the conversation, and the relay still emits the one
`done` event for that terminal pair. -/
theorem stream_empty_commits_empty_assistant
    (streamFn : String → List (String × String) → String → List String)
    (store : App.Store) (request : App.ChatRequest) (defaultSystemPrompt : String)
    (t newId : Nat) (conversation : App.Conversation) (store0 : App.Store)
    (hres : App.getOrCreateConversation store request defaultSystemPrompt t newId =
      Except.ok (conversation, store0))
    (hfrag : streamFn request.message
        (App.buildHistory (conversation.messages ++
          [{ role := "user", content := request.message, timestamp := t + 1 }]))
        (App.effectiveSystemPrompt conversation.system_prompt defaultSystemPrompt) =
      []) :
    ∃ final : App.Conversation,
      App.streamMessage streamFn store request defaultSystemPrompt t newId =
        Except.ok ([("", some final)],
          App.Store.insert (App.Store.insert store0
            { conversation with
                messages := conversation.messages ++
                  [{ role := "user", content := request.message, timestamp := t + 1 }] })
            final) ∧
      final.messages = conversation.messages ++
        [{ role := "user", content := request.message, timestamp := t + 1 },
         { role := "assistant", content := "", timestamp := t + 2 }] ∧
      final.updated_at = t + 3 ∧
      App.eventGenerator [("", some final)] =
        [{ event := "done", data := App.doneData conversation.id }] := by
  simp only [App.streamMessage, hres, hfrag, App.commitAssistant, List.map_nil,
    List.nil_append]
  refine ⟨_, rfl, ?_, ?_, ?_⟩
  · split <;> simp [List.append_assoc, String.join]
  · split <;> dsimp only
  · simp only [App.eventGenerator, List.map_cons, List.map_nil]
    split <;> rfl

set_option maxRecDepth 8192 in
/-- Witness for `stream_empty_commits_empty_assistant`: a concrete new
conversation with an adapter stream yielding no fragments. -/
theorem stream_empty_commits_empty_assistant_witness :
    ∃ final : App.Conversation,
      App.streamMessage (fun _ _ _ => []) [] ⟨"ping", none⟩ "sys" 0 7 =
        Except.ok ([("", some final)],
          App.Store.insert (App.Store.insert [⟨7, none, some "sys", [], 0, 0, []⟩]
            { (⟨7, none, some "sys", [], 0, 0, []⟩ : App.Conversation) with
                messages := ([] : List App.Message) ++
                  [{ role := "user", content := "ping", timestamp := 0 + 1 }] })
            final) ∧
      final.messages = ([] : List App.Message) ++
        [{ role := "user", content := "ping", timestamp := 0 + 1 },
         { role := "assistant", content := "", timestamp := 0 + 2 }] ∧
      final.updated_at = 0 + 3 ∧
      App.eventGenerator [("", some final)] =
        [{ event := "done", data := App.doneData 7 }] :=
  stream_empty_commits_empty_assistant (fun _ _ _ => []) [] ⟨"ping", none⟩ "sys" 0 7
    ⟨7, none, some "sys", [], 0, 0, []⟩ [⟨7, none, some "sys", [], 0, 0, []⟩]
    (by rfl) (by rfl)

set_option maxRecDepth 8192 in
/-- C1 counterexample: for the adapter stream `["Hello", ", ", "world"]` the
relay emits the three fragment events under the SSE event name `"message"`
(`routes.py` line 98), not `"content"` as the claim states, so the claim's
three `content` events do not occur. -/
theorem stream_relay_content_event_kind_counterexample :
    App.streamMessage (fun _ _ _ => ["Hello", ", ", "world"]) []
      ⟨"Hi there", none⟩ "sys" 0 1 =
      Except.ok
        ([("Hello", none), (", ", none), ("world", none),
          ("", some ⟨1, some "Hi there", some "sys",
            [⟨"user", "Hi there", 1⟩, ⟨"assistant", "Hello, world", 2⟩],
            0, 3, []⟩)],
         [⟨1, some "Hi there", some "sys",
            [⟨"user", "Hi there", 1⟩, ⟨"assistant", "Hello, world", 2⟩],
            0, 3, []⟩]) ∧
    List.map App.SSEEvent.event
      (App.eventGenerator
        [("Hello", none), (", ", none), ("world", none),
         ("", some ⟨1, some "Hi there", some "sys",
            [⟨"user", "Hi there", 1⟩, ⟨"assistant", "Hello, world", 2⟩],
            0, 3, []⟩)]) = ["message", "message", "message", "done"] ∧
    ("message" : String) ≠ "content" :=
  ⟨by rfl, by rfl, by decide⟩

set_option maxRecDepth 8192 in
/-- C1 (amended): for the adapter stream `["Hello", ", ", "world"]` the relay
emits three fragment events — under the SSE event name `"message"` — with
exactly those payloads in order, then exactly one terminal `done` event
carrying the conversation id, and the committed assistant message content is
the concatenation `"Hello, world"`. -/
theorem stream_relay_scenario :
    App.streamMessage (fun _ _ _ => ["Hello", ", ", "world"]) []
      ⟨"Hi there", none⟩ "sys" 0 1 =
      Except.ok
        ([("Hello", none), (", ", none), ("world", none),
          ("", some ⟨1, some "Hi there", some "sys",
            [⟨"user", "Hi there", 1⟩, ⟨"assistant", "Hello, world", 2⟩],
            0, 3, []⟩)],
         [⟨1, some "Hi there", some "sys",
            [⟨"user", "Hi there", 1⟩, ⟨"assistant", "Hello, world", 2⟩],
            0, 3, []⟩]) ∧
    App.eventGenerator
      [("Hello", none), (", ", none), ("world", none),
       ("", some ⟨1, some "Hi there", some "sys",
          [⟨"user", "Hi there", 1⟩, ⟨"assistant", "Hello, world", 2⟩],
          0, 3, []⟩)] =
      [⟨"message", "Hello"⟩, ⟨"message", ", "⟩, ⟨"message", "world"⟩,
       ⟨"done", App.doneData 1⟩] ∧
    (List.filter (fun e => e.event == "done")
      (App.eventGenerator
        [("Hello", none), (", ", none), ("world", none),
         ("", some ⟨1, some "Hi there", some "sys",
            [⟨"user", "Hi there", 1⟩, ⟨"assistant", "Hello, world", 2⟩],
            0, 3, []⟩)])).length = 1 ∧
    (⟨1, some "Hi there", some "sys",
      [⟨"user", "Hi there", 1⟩, ⟨"assistant", "Hello, world", 2⟩],
      0, 3, []⟩ : App.Conversation).messages.getLast? =
      some ⟨"assistant", "Hello, world", 2⟩ ∧
    "Hello" ++ ", " ++ "world" = "Hello, world" :=
  ⟨by rfl, by rfl, by rfl, by rfl, by rfl⟩

/-- Inserting a conversation whose messages all carry chat roles preserves
the store-wide role invariant. -/
theorem App.Store.chatRolesOnly_insert (s : App.Store) (c : App.Conversation)
    (hs : s.chatRolesOnly) (hc : c.chatRolesOnly) :
    (App.Store.insert s c).chatRolesOnly := by
  intro x hx
  rcases App.Store.mem_insert s c x hx with h | h
  · exact hs x h
  · rw [h]
    exact hc

/-- A conversation retrieved from a store satisfying the role invariant
satisfies it too. -/
theorem App.Store.chatRolesOnly_get (s : App.Store) (cid : Nat)
    (c : App.Conversation) (hs : s.chatRolesOnly)
    (h : App.Store.get s cid = some c) : c.chatRolesOnly :=
  hs c (List.mem_of_find?_eq_some h)

/-- Resolving or creating a conversation preserves the role invariant: the
resolved conversation holds only chat roles, and so does the store it leaves
behind. -/
theorem App.getOrCreate_chatRolesOnly (store : App.Store)
    (request : App.ChatRequest) (defaultSystemPrompt : String) (t newId : Nat)
    (conversation : App.Conversation) (store0 : App.Store)
    (hs : store.chatRolesOnly)
    (hres : App.getOrCreateConversation store request defaultSystemPrompt t newId =
      Except.ok (conversation, store0)) :
    conversation.chatRolesOnly ∧ store0.chatRolesOnly := by
  unfold App.getOrCreateConversation at hres
  split at hres
  · split at hres
    · simp only [Except.ok.injEq, Prod.mk.injEq] at hres
      obtain ⟨h1, h2⟩ := hres
      refine ⟨h1 ▸ ?_, h2 ▸ hs⟩
      exact App.Store.chatRolesOnly_get store _ _ hs (by assumption)
    · exact absurd hres (by simp)
  · simp only [App.createConversation, Except.ok.injEq, Prod.mk.injEq] at hres
    obtain ⟨h1, h2⟩ := hres
    subst h1
    subst h2
    constructor
    · intro m hm
      exact absurd hm (by simp)
    · exact App.Store.chatRolesOnly_insert store _ hs (fun m hm => absurd hm (by simp))

/-- C4 counterexample: in the legacy backend, creating a conversation with a
set system prompt does store the prompt as a `system` `Message` in the
messages sequence, so the sequence is neither empty nor restricted to user
and assistant messages. -/
theorem backend_create_stores_system_prompt_counterexample :
    (Backend.createConversation ⟨"T", "You are helpful", "gemini-pro"⟩ 0 1 []).1.messages =
      [⟨"system", "You are helpful", 0⟩] ∧
    (Backend.createConversation ⟨"T", "You are helpful", "gemini-pro"⟩ 0 1 []).1.messages ≠
      ([] : List Backend.Message) ∧
    ("system" : String) ≠ "user" ∧ ("system" : String) ≠ "assistant" :=
  ⟨by rfl, by decide, by decide, by decide⟩

/-- C4 (amended): in the app implementation the claim holds — creating a
conversation (with or without a system prompt) leaves the messages sequence
empty, and chat requests only ever append user and assistant messages, so
the store-wide role invariant is preserved; in the legacy backend
implementation, creating a conversation with a non-empty system prompt
additionally stores the prompt as a `system` `Message` at creation time. -/
theorem system_prompt_storage_amended :
    (∀ (request : App.ConversationCreateRequest) (t newId : Nat) (store : App.Store),
      (App.createConversation request t newId store).1.messages = []) ∧
    (∀ (gen : String → List (String × String) → String → App.GenResult)
        (store : App.Store) (request : App.ChatRequest)
        (defaultSystemPrompt : String) (t newId : Nat),
      store.chatRolesOnly →
      ((App.processMessage gen store request defaultSystemPrompt t newId).2).chatRolesOnly) ∧
    (∀ (cd : Backend.CreateConversationRequest) (t newId : Nat) (store : Backend.Store),
      cd.system_prompt ≠ "" →
      (Backend.createConversation cd t newId store).1.messages =
        [{ role := "system", content := cd.system_prompt, timestamp := t }]) := by
  refine ⟨fun request t newId store => rfl, ?_, ?_⟩
  · intro gen store request dsp t newId hs
    unfold App.processMessage
    cases hres : App.getOrCreateConversation store request dsp t newId with
    | error e => exact hs
    | ok pair =>
      obtain ⟨conversation, store0⟩ := pair
      obtain ⟨hconv, hstore0⟩ :=
        App.getOrCreate_chatRolesOnly store request dsp t newId conversation store0 hs hres
      have huser : ({ conversation with
          messages := conversation.messages ++
            [{ role := "user", content := request.message, timestamp := t + 1 }] } :
          App.Conversation).chatRolesOnly := by
        intro m hm
        rcases List.mem_append.mp hm with h | h
        · exact hconv m h
        · simp at h
          subst h
          exact Or.inl rfl
      dsimp only
      split
      · exact App.Store.chatRolesOnly_insert _ _ hstore0 huser
      · simp only [App.commitAssistant]
        refine App.Store.chatRolesOnly_insert _ _
          (App.Store.chatRolesOnly_insert _ _ hstore0 huser) ?_
        intro m hm
        split at hm
        all_goals
          rcases List.mem_append.mp hm with h | h
        · exact huser m h
        · simp at h
          subst h
          exact Or.inr rfl
        · exact huser m h
        · simp at h
          subst h
          exact Or.inr rfl
  · intro cd t newId store hne
    unfold Backend.createConversation
    dsimp only
    rw [if_pos hne]
    rfl

set_option maxRecDepth 8192 in
/-- Witness for `system_prompt_storage_amended` at concrete inputs. -/
theorem system_prompt_storage_amended_witness :
    (App.createConversation ⟨none, some "sys"⟩ 0 1 []).1.messages = [] ∧
    App.Store.chatRolesOnly
      (App.processMessage (fun _ _ _ => App.GenResult.ok "pong") []
        ⟨"ping", none⟩ "sys" 0 7).2 ∧
    (Backend.createConversation ⟨"T", "You are helpful", "gemini-pro"⟩ 0 1 []).1.messages =
      [{ role := "system", content := "You are helpful", timestamp := 0 }] :=
  ⟨system_prompt_storage_amended.1 ⟨none, some "sys"⟩ 0 1 [],
   system_prompt_storage_amended.2.1 (fun _ _ _ => App.GenResult.ok "pong") []
     ⟨"ping", none⟩ "sys" 0 7 (by decide),
   system_prompt_storage_amended.2.2 ⟨"T", "You are helpful", "gemini-pro"⟩ 0 1 []
     (by decide)⟩

/-- C9 counterexample: a request for which no adapter can be resolved (model
`"unknown-x"` against a registry holding only `"google"`) nonetheless
creates the conversation and appends the user message before any failure
surfaces — and the surfaced failure is not `UnsupportedModel` at all but the
`TypeError` from `send_message`'s mismatched keyword call, wrapped into a
500, because the invocation never reaches adapter resolution. Both mutations
survive the failure. -/
theorem unsupported_model_mutates_state_counterexample :
    Backend.resolveAdapter [("google", ⟨fun _ _ => Except.ok "hello"⟩)] "unknown-x" =
      none ∧
    Backend.sendMessage [("google", ⟨fun _ _ => Except.ok "hello"⟩)] []
      ⟨none, "hi", some "unknown-x", none⟩ 0 5 =
      (Except.error (Backend.HttpError.internalError
        ("模型调用失败: " ++ Backend.typeErrorDetail)),
       [⟨5, "hi", [⟨"user", "hi", 1⟩], "", "unknown-x", 0, 0⟩]) ∧
    Backend.Store.get
      (Backend.sendMessage [("google", ⟨fun _ _ => Except.ok "hello"⟩)] []
        ⟨none, "hi", some "unknown-x", none⟩ 0 5).2 5 =
      some ⟨5, "hi", [⟨"user", "hi", 1⟩], "", "unknown-x", 0, 0⟩ :=
  ⟨by rfl, by rfl, by rfl⟩

/-- C9 (amended): a request failing with `NoModelSpecified` (new
conversation, falsy model) is rejected before any state mutation — the store
is returned unchanged. No chat request ever fails with `UnsupportedModel`:
`send_message` invokes `generate_response` with a `model=` keyword that does
not exist in its signature `(model_id, messages, system_prompt)`, so every
invocation — on both the new- and the existing-conversation path, whatever
the registry holds — raises `TypeError` at the call boundary, surfaced as a
wrapped 500 only after the conversation (when new) has been created and the
user message appended; those mutations are retained. -/
theorem no_model_vs_unsupported_model_mutation
    (adapters : List (String × Backend.LLMAdapter)) (store : Backend.Store)
    (request : Backend.ChatRequest) (t newId : Nat) :
    (request.conversation_id = none → Backend.optionFalsy request.model = true →
      Backend.sendMessage adapters store request t newId =
        (Except.error (Backend.HttpError.badRequest "创建新对话时必须提供模型名称"), store)) ∧
    (∀ model : String, request.conversation_id = none → request.model = some model →
      model ≠ "" → request.system_prompt = none →
      Backend.sendMessage adapters store request t newId =
        (Except.error (Backend.HttpError.internalError
          ("模型调用失败: " ++ Backend.typeErrorDetail)),
         Backend.Store.insert
           (Backend.Store.insert store
             ⟨newId, Backend.truncatedTitle request.message, [], "", model, t, t⟩)
           ⟨newId, Backend.truncatedTitle request.message,
             [{ role := "user", content := request.message, timestamp := t + 1 }],
             "", model, t, t⟩) ∧
      Backend.Store.get (Backend.sendMessage adapters store request t newId).2 newId =
        some ⟨newId, Backend.truncatedTitle request.message,
          [{ role := "user", content := request.message, timestamp := t + 1 }],
          "", model, t, t⟩) ∧
    (∀ (cid : Nat) (conv : Backend.Conversation),
      request.conversation_id = some cid →
      Backend.Store.get store cid = some conv →
      Backend.sendMessage adapters store request t newId =
        (Except.error (Backend.HttpError.internalError
          ("模型调用失败: " ++ Backend.typeErrorDetail)),
         Backend.Store.insert store
           { conv with
               messages := conv.messages ++
                 [{ role := "user", content := request.message, timestamp := t + 1 }] }) ∧
      Backend.Store.get (Backend.sendMessage adapters store request t newId).2 conv.id =
        some { conv with
                messages := conv.messages ++
                  [{ role := "user", content := request.message, timestamp := t + 1 }] }) := by
  refine ⟨?_, ?_, ?_⟩
  · intro hcid hfalsy
    simp only [Backend.sendMessage, hcid, hfalsy, if_true]
  · intro model hcid hmodel hne hsp
    have hfalsy : Backend.optionFalsy (some model) = false := by
      simp [Backend.optionFalsy, hne]
    have h1 : Backend.sendMessage adapters store request t newId =
        (Except.error (Backend.HttpError.internalError
          ("模型调用失败: " ++ Backend.typeErrorDetail)),
         Backend.Store.insert
           (Backend.Store.insert store
             ⟨newId, Backend.truncatedTitle request.message, [], "", model, t, t⟩)
           ⟨newId, Backend.truncatedTitle request.message,
             [{ role := "user", content := request.message, timestamp := t + 1 }],
             "", model, t, t⟩) := by
      simp only [Backend.sendMessage, hcid, hmodel, hfalsy, Bool.false_eq_true,
        if_false, Option.getD_some, Backend.createConversation, hsp,
        Option.getD_none, Backend.sendMessageInvoke, Backend.callGenerateResponse]
      simp
    refine ⟨h1, ?_⟩
    rw [h1]
    exact Backend.Store.get_insert_backend _ _
  · intro cid conv hcid hget
    have h1 : Backend.sendMessage adapters store request t newId =
        (Except.error (Backend.HttpError.internalError
          ("模型调用失败: " ++ Backend.typeErrorDetail)),
         Backend.Store.insert store
           { conv with
               messages := conv.messages ++
                 [{ role := "user", content := request.message, timestamp := t + 1 }] }) := by
      simp only [Backend.sendMessage, hcid, hget, Backend.sendMessageInvoke,
        Backend.callGenerateResponse]
    refine ⟨h1, ?_⟩
    rw [h1]
    exact Backend.Store.get_insert_backend _ _

/-- Witness for `no_model_vs_unsupported_model_mutation`: the 400 rejection
leaves an empty store empty; the broken invocation leaves the created
conversation with its user message in the store on the new-conversation
path, and the appended user message in the store on the
existing-conversation path. -/
theorem no_model_vs_unsupported_model_mutation_witness :
    Backend.sendMessage [("google", ⟨fun _ _ => Except.ok "hello"⟩)] []
      ⟨none, "hi", none, none⟩ 0 5 =
      (Except.error (Backend.HttpError.badRequest "创建新对话时必须提供模型名称"), []) ∧
    Backend.Store.get
      (Backend.sendMessage [("google", ⟨fun _ _ => Except.ok "hello"⟩)] []
        ⟨none, "hi", some "unknown-x", none⟩ 0 5).2 5 =
      some ⟨5, Backend.truncatedTitle "hi",
        [{ role := "user", content := "hi", timestamp := 0 + 1 }],
        "", "unknown-x", 0, 0⟩ ∧
    Backend.sendMessage [("google", ⟨fun _ _ => Except.ok "hello"⟩)]
      [⟨9, "T", [], "", "gemini-pro", 0, 0⟩] ⟨some 9, "hi", none, none⟩ 0 5 =
      (Except.error (Backend.HttpError.internalError
        ("模型调用失败: " ++ Backend.typeErrorDetail)),
       Backend.Store.insert [⟨9, "T", [], "", "gemini-pro", 0, 0⟩]
         { (⟨9, "T", [], "", "gemini-pro", 0, 0⟩ : Backend.Conversation) with
             messages := ([] : List Backend.Message) ++
               [{ role := "user", content := "hi", timestamp := 0 + 1 }] }) :=
  ⟨(no_model_vs_unsupported_model_mutation
      [("google", ⟨fun _ _ => Except.ok "hello"⟩)] []
      ⟨none, "hi", none, none⟩ 0 5).1 rfl rfl,
   ((no_model_vs_unsupported_model_mutation
      [("google", ⟨fun _ _ => Except.ok "hello"⟩)] []
      ⟨none, "hi", some "unknown-x", none⟩ 0 5).2.1 "unknown-x" rfl rfl
      (by decide) rfl).2,
   ((no_model_vs_unsupported_model_mutation
      [("google", ⟨fun _ _ => Except.ok "hello"⟩)]
      [⟨9, "T", [], "", "gemini-pro", 0, 0⟩]
      ⟨some 9, "hi", none, none⟩ 0 5).2.2 9
      ⟨9, "T", [], "", "gemini-pro", 0, 0⟩ rfl (by rfl)).1⟩
